import Mathlib

/-!
Shallow embedding of the xterminator token monitoring engine
(src/token_tracker.py, src/monitor.py, src/manager.py).

Conventions:
* Machine time is modelled as natural-number seconds; `datetime.now()` /
  `datetime.utcnow()` become an explicit `now : Nat` parameter.
* Python dicts that are only ever indexed by token address are modelled as
  association lists in insertion order (matching `dict` iteration order).
* Python sets of identifiers become duplicate-free-by-construction lists,
  used only through membership.
* Floats: `get_average_tweet_count` computes `round(total / time_factor, 1)`.
  We model the real-number value exactly: the score is kept as an integer
  number of tenths, rounded to the nearest tenth with ties to even, which is
  Python 3 `round` semantics on the exact rational value.
-/

namespace Xterm

/-- Association-list lookup for string-keyed Python dicts (`d.get(k)` /
`d[k]` after a `k in d` check). -/
def alookup {β : Type} : List (String × β) → String → Option β
  | [], _ => none
  | e :: es, k => if e.1 = k then some e.2 else alookup es k

/-- In-place update of the entry at key `k` (Python `d[k].field = ...` on an
existing entry); a no-op when the key is absent, matching the
`if token_address in self.tokens:` guards in `TokenTracker`. -/
def mapEntry {β : Type} (k : String) (f : β → β) (l : List (String × β)) :
    List (String × β) :=
  l.map (fun e => if e.1 = k then (e.1, f e.2) else e)

/-- Round-half-even of the fraction `n / d` (for `d > 0`): the integer
nearest to `n / d`, ties to the even integer.  This is Python 3 `round`
applied to the exact rational value. -/
def rhe (n d : Nat) : Nat :=
  let q := n / d
  let r := n % d
  if 2 * r < d then q
  else if d < 2 * r then q + 1
  else if q % 2 = 0 then q else q + 1

/-- `TokenStats` dataclass from src/token_tracker.py.  Counter defaults are
the dataclass defaults. -/
structure TokenStats where
  token_address : String
  token_name : Option String
  ticker : Option String
  chat_ids : List Int
  start_time : Nat
  initial_tweets : Nat := 0
  initial_verified : Nat := 0
  initial_non_verified : Nat := 0
  total_tweets : Nat := 0
  total_verified : Nat := 0
  total_non_verified : Nat := 0
  last_poll_tweets : Nat := 0
  last_poll_verified : Nat := 0
  last_poll_non_verified : Nat := 0
  is_active : Bool := true
deriving Repr, DecidableEq

/-- `TokenStats.get_monitoring_minutes`: whole minutes elapsed since
`start_time` (the claims only concern `now ≥ start_time`). -/
def get_monitoring_minutes (now : Nat) (s : TokenStats) : Nat :=
  (now - s.start_time) / 60

/-- `TokenStats.get_time_factor` as an exact rational:
`1 + minutes / 60`. -/
def get_time_factor (now : Nat) (s : TokenStats) : ℚ :=
  1 + (get_monitoring_minutes now s : ℚ) / 60

/-- Exact (unrounded) average mention rate `total_tweets / time_factor`,
before the `round(..., 1)` applied by `get_average_tweet_count`. -/
def average_rate (now : Nat) (s : TokenStats) : ℚ :=
  (s.total_tweets : ℚ) / get_time_factor now s

/-- `TokenStats.get_average_tweet_count`, scaled by ten to an integer:
`round(total_tweets / time_factor, 1) * 10`.  Since
`time_factor = (60 + minutes) / 60`, the value rounded is
`600 * total_tweets / (60 + minutes)` tenths. -/
def get_average_tenths (now : Nat) (s : TokenStats) : Nat :=
  rhe (600 * s.total_tweets) (60 + get_monitoring_minutes now s)

/-- The `TokenTracker` singleton's data (src/token_tracker.py); the `bot` /
`chat_id` handles are external collaborators and carry no engine state. -/
structure TokenTracker where
  tokens : List (String × TokenStats)
  mode : String
deriving Repr, DecidableEq

/-- Python set `add`: append the channel if it is not already present. -/
def insertChat (c : Int) (l : List Int) : List Int :=
  if c ∈ l then l else l ++ [c]

/-- Mutation of the stats entry stored under a key, as performed by all the
`if token_address in self.tokens:` guarded updates of `TokenTracker`. -/
def modifyTok (tr : TokenTracker) (k : String) (f : TokenStats → TokenStats) :
    TokenTracker :=
  { tr with tokens := mapEntry k f tr.tokens }

/-- `TokenTracker.add_token`: register a new token, or add the channel to an
existing one; returns the (updated) stats entry like the source does. -/
def add_token (tr : TokenTracker) (token_address : String)
    (token_name ticker : Option String) (chat_id : Int) (now : Nat) :
    TokenTracker × TokenStats :=
  match alookup tr.tokens token_address with
  | some s =>
      (modifyTok tr token_address
         (fun t => { t with chat_ids := insertChat chat_id t.chat_ids }),
       { s with chat_ids := insertChat chat_id s.chat_ids })
  | none =>
      let s : TokenStats :=
        { token_address := token_address, token_name := token_name,
          ticker := ticker, chat_ids := [chat_id], start_time := now }
      ({ tr with tokens := tr.tokens ++ [(token_address, s)] }, s)

/-- `TokenTracker.add_channel_to_token`. -/
def add_channel_to_token (tr : TokenTracker) (token_address : String)
    (chat_id : Int) : TokenTracker :=
  modifyTok tr token_address
    (fun t => { t with chat_ids := insertChat chat_id t.chat_ids })

/-- `TokenTracker.update_initial`: one-time snapshot that also seeds the
running totals. -/
def update_initial (tr : TokenTracker) (token_address : String)
    (total verified non_verified : Nat) : TokenTracker :=
  modifyTok tr token_address
    (fun s => { s with
        initial_tweets := total, initial_verified := verified,
        initial_non_verified := non_verified,
        total_tweets := total, total_verified := verified,
        total_non_verified := non_verified })

/-- `TokenTracker.update_poll`: overwrite last-cycle counters, add the cycle
deltas to the running totals. -/
def update_poll (tr : TokenTracker) (token_address : String)
    (new_tweets new_verified new_non_verified : Nat) : TokenTracker :=
  modifyTok tr token_address
    (fun s => { s with
        last_poll_tweets := new_tweets,
        last_poll_verified := new_verified,
        last_poll_non_verified := new_non_verified,
        total_tweets := s.total_tweets + new_tweets,
        total_verified := s.total_verified + new_verified,
        total_non_verified := s.total_non_verified + new_non_verified })

/-- `TokenTracker.mark_complete`. -/
def mark_complete (tr : TokenTracker) (token_address : String) : TokenTracker :=
  modifyTok tr token_address (fun s => { s with is_active := false })

/-- A sequence of `update_poll` calls for one token, with the per-cycle
deltas `(new_tweets, new_verified, new_non_verified)`. -/
def run_cycles (tr : TokenTracker) (token_address : String)
    (ds : List (Nat × Nat × Nat)) : TokenTracker :=
  ds.foldl (fun acc d => update_poll acc token_address d.1 d.2.1 d.2.2) tr

/-- `TokenTracker.get_stats`. -/
def get_stats (tr : TokenTracker) (token_address : String) : Option TokenStats :=
  alookup tr.tokens token_address

/-- `TokenTracker.get_active_tokens`.  The Python guard is `if chat_id:`
(truthiness), so `None` and the channel id `0` both mean "no filter". -/
def get_active_tokens (tr : TokenTracker) (chat_id : Option Int) :
    List TokenStats :=
  match chat_id with
  | some c =>
      if c = 0 then (tr.tokens.map (·.2)).filter (fun s => s.is_active)
      else (tr.tokens.map (·.2)).filter
        (fun s => s.is_active && s.chat_ids.contains c)
  | none => (tr.tokens.map (·.2)).filter (fun s => s.is_active)

/-- Stable descending insertion: `x` is placed before the first element with
a strictly smaller key, i.e. after every earlier element whose key ties
with `x`.  Folding this over a list in order is exactly Python
`sorted(l, key=..., reverse=True)`, which is a stable descending sort. -/
def insertDesc (key : TokenStats → Nat) (x : TokenStats) :
    List TokenStats → List TokenStats
  | [] => [x]
  | y :: ys => if key y < key x then x :: y :: ys else y :: insertDesc key x ys

/-- Stable sort, descending by `key` (Python
`sorted(active, key=..., reverse=True)`). -/
def sortDesc (key : TokenStats → Nat) (l : List TokenStats) : List TokenStats :=
  l.foldl (fun acc x => insertDesc key x acc) []

/-- The ordering that a stable descending sort by `key` guarantees on a
list whose original order is by non-decreasing `start_time`: a strictly
larger key comes first, and key ties keep the earlier `start_time` first. -/
def rank_order (key : TokenStats → Nat) (a b : TokenStats) : Prop :=
  key b < key a ∨ (key a = key b ∧ a.start_time ≤ b.start_time)

instance (key : TokenStats → Nat) (a b : TokenStats) :
    Decidable (rank_order key a b) := by
  unfold rank_order; infer_instance

/-- `TokenTracker.get_top_tokens`: active tokens (optionally filtered by
channel) sorted descending by `get_average_tweet_count`, truncated to
`limit`. -/
def get_top_tokens (tr : TokenTracker) (limit : Nat) (chat_id : Option Int)
    (now : Nat) : List TokenStats :=
  (sortDesc (get_average_tenths now) (get_active_tokens tr chat_id)).take limit

/-! ## Monitor session (src/monitor.py) -/

/-- The fields of a mention record that the counting logic reads: the tweet
id (dedup key) and the classified author trust flag
(`verified or blue`, computed per result). -/
structure Tweet where
  id : Nat
  verified : Bool
deriving Repr, DecidableEq

/-- Loop state of `TokenMonitor.poll_new_mentions`: the session dedup set
plus the per-cycle batch and its verified / non-verified tallies. -/
structure PollAcc where
  seen_ids : List Nat
  new_tweets : List Tweet
  new_verified : Nat
  new_non_verified : Nat
deriving Repr, DecidableEq

/-- One iteration of the `async for tweet in self.api.search(...)` loop in
`poll_new_mentions`: skip when the id was already seen, otherwise record the
id and append the tweet to the batch, tallying its trust flag. -/
def poll_step (acc : PollAcc) (t : Tweet) : PollAcc :=
  if t.id ∈ acc.seen_ids then acc
  else
    { seen_ids := t.id :: acc.seen_ids,
      new_tweets := acc.new_tweets ++ [t],
      new_verified := acc.new_verified + (if t.verified then 1 else 0),
      new_non_verified := acc.new_non_verified + (if t.verified then 0 else 1) }

/-- The whole search loop of `poll_new_mentions`, run over the sequence of
results the provider returns for this cycle. -/
def poll_search (seen : List Nat) (results : List Tweet) : PollAcc :=
  results.foldl poll_step
    { seen_ids := seen, new_tweets := [], new_verified := 0,
      new_non_verified := 0 }

/-- One iteration of the `initial_count` search loop: every result is
counted (no dedup filtering) and its id is added to the dedup set. -/
def initial_count_step (st : (Nat × Nat × Nat) × List Nat) (t : Tweet) :
    (Nat × Nat × Nat) × List Nat :=
  ((st.1.1 + 1,
    st.1.2.1 + (if t.verified then 1 else 0),
    st.1.2.2 + (if t.verified then 0 else 1)),
   t.id :: st.2)

/-- `TokenMonitor.initial_count` search loop: returns
`(count, verified, non_verified)` and the grown dedup set. -/
def initial_count (seen : List Nat) (results : List Tweet) :
    (Nat × Nat × Nat) × List Nat :=
  results.foldl initial_count_step ((0, 0, 0), seen)

/-- User-visible effects of the engine that the claims talk about. -/
inductive BotEvent
  | initialNotification (chat : Int) (token : String)
  | monitorStarted (token : String)
  | newMentionsMessage (token : String) (batch : Nat)
deriving Repr, DecidableEq

/-- `TokenMonitor.poll_new_mentions` after the search loop: a non-empty
batch updates the tracker with the batch counts and, only in legacy mode,
dispatches a per-cycle message; an empty batch still records a zero cycle.
Returns the new dedup set, the updated tracker and the dispatched
messages.  (Appending the raw batch to the CSV sink is an external
collaborator and is not part of the engine state.) -/
def poll_new_mentions (mode : String) (tr : TokenTracker) (token : String)
    (seen : List Nat) (results : List Tweet) :
    List Nat × TokenTracker × List BotEvent :=
  let acc := poll_search seen results
  if acc.new_tweets = [] then
    (acc.seen_ids, update_poll tr token 0 0 0, [])
  else
    (acc.seen_ids,
     update_poll tr token acc.new_tweets.length acc.new_verified
       acc.new_non_verified,
     if mode = "legacy" then
       [BotEvent.newMentionsMessage token acc.new_tweets.length]
     else [])

/-- A run of consecutive poll cycles of one session: threads the dedup set
through and collects each cycle's deduplicated batch. -/
def run_polls (seen : List Nat) (cycles : List (List Tweet)) :
    List Nat × List (List Tweet) :=
  match cycles with
  | [] => (seen, [])
  | c :: cs =>
      let acc := poll_search seen c
      let rest := run_polls acc.seen_ids cs
      (rest.1, acc.new_tweets :: rest.2)

/-- Number of occurrences of the mention id `i` in one cycle batch. -/
def batch_id_count (i : Nat) (b : List Tweet) : Nat :=
  (b.filter (fun t => t.id == i)).length

/-- Number of occurrences of the mention id `i` across a list of cycle
batches. -/
def id_count (i : Nat) (batches : List (List Tweet)) : Nat :=
  (batches.map (batch_id_count i)).sum

/-! ## Metadata resolver (src/manager.py) -/

/-- `pair.get('name') or None`: Python truthiness turns an absent key or an
empty string into `None`. -/
def or_none : Option String → Option String
  | some s => if s = "" then none else some s
  | none => none

/-- A `baseToken` record of one DexScreener pair, as read by
`_fetch_from_dexscreener` (plus the pair's `chainId`). -/
structure DexPair where
  name : Option String
  symbol : Option String
  chainId : Option String
deriving Repr, DecidableEq

/-- Outcome of one DexScreener HTTP attempt: a 200 response with its parsed
`pairs` list, a non-200 status, a timeout, or any other exception. -/
inductive DexResp
  | ok (pairs : List DexPair)
  | httpStatus (code : Nat)
  | timeout
  | netError
deriving Repr, DecidableEq

/-- Result and observable trace of `_fetch_from_dexscreener`: the returned
`(name, ticker, chain)` triple, the `asyncio.sleep` durations performed (in
seconds, in order), and the number of HTTP attempts made. -/
structure FetchOut where
  name : Option String
  ticker : Option String
  chain : Option String
  sleeps : List Nat
  attempts : Nat
deriving Repr, DecidableEq

/-- The `for attempt in range(3)` retry loop of `_fetch_from_dexscreener`.
`resps k` is the provider outcome of attempt `k` (0-based); `fuel` is the
number of loop iterations left (3 at entry).  A 200 with pairs returns the
first pair's data; a 200 with no pairs is a definitive not-found; 429
sleeps `30 * (attempt + 1)` and retries; any other status, a timeout or
another error sleeps 5 s and retries while `attempt < 2`, else gives up. -/
def fetch_dex_go (resps : Nat → DexResp) : Nat → Nat → FetchOut
  | 0, _ => { name := none, ticker := none, chain := none, sleeps := [],
              attempts := 0 }
  | fuel + 1, k =>
    match resps k with
    | DexResp.ok [] =>
        { name := none, ticker := none, chain := none, sleeps := [],
          attempts := 1 }
    | DexResp.ok (p :: _) =>
        { name := or_none p.name,
          ticker := (or_none p.symbol).map (fun s => "$" ++ s),
          chain := some (p.chainId.getD "unknown"),
          sleeps := [], attempts := 1 }
    | DexResp.httpStatus c =>
        if c = 429 then
          let rest := fetch_dex_go resps fuel (k + 1)
          { rest with sleeps := 30 * (k + 1) :: rest.sleeps,
                      attempts := rest.attempts + 1 }
        else if k < 2 then
          let rest := fetch_dex_go resps fuel (k + 1)
          { rest with sleeps := 5 :: rest.sleeps,
                      attempts := rest.attempts + 1 }
        else
          { name := none, ticker := none, chain := none, sleeps := [],
            attempts := 1 }
    | DexResp.timeout =>
        if k < 2 then
          let rest := fetch_dex_go resps fuel (k + 1)
          { rest with sleeps := 5 :: rest.sleeps,
                      attempts := rest.attempts + 1 }
        else
          { name := none, ticker := none, chain := none, sleeps := [],
            attempts := 1 }
    | DexResp.netError =>
        if k < 2 then
          let rest := fetch_dex_go resps fuel (k + 1)
          { rest with sleeps := 5 :: rest.sleeps,
                      attempts := rest.attempts + 1 }
        else
          { name := none, ticker := none, chain := none, sleeps := [],
            attempts := 1 }

/-- `_fetch_from_dexscreener`: the retry loop entered with 3 attempts. -/
def fetch_from_dexscreener (resps : Nat → DexResp) : FetchOut :=
  fetch_dex_go resps 3 0

/-- The sleep the retry loop performs after the outcome of attempt `k`
(0-based): `30 * (k + 1)` seconds after a 429, 5 seconds after a timeout or
any other failure while retries remain (`k < 2`), nothing otherwise. -/
def sleep_schedule (k : Nat) (r : DexResp) : List Nat :=
  match r with
  | DexResp.ok _ => []
  | DexResp.httpStatus c =>
      if c = 429 then [30 * (k + 1)] else if k < 2 then [5] else []
  | DexResp.timeout => if k < 2 then [5] else []
  | DexResp.netError => if k < 2 then [5] else []

/-- `(name, ticker, chain)` triple as returned by the resolver; `none`
models Python `None`. -/
def TokenInfo : Type := Option String × Option String × Option String

instance : DecidableEq TokenInfo := by unfold TokenInfo; infer_instance

/-- Jupiter token metadata payload, as read by `_fetch_from_jupiter`. -/
structure JupData where
  name : Option String
  symbol : Option String
deriving Repr, DecidableEq

/-- Outcome of the single Jupiter attempt: a 200 response whose JSON body is
truthy (`some`) or falsy (`none`), a non-200 status, or an exception. -/
inductive JupResp
  | ok (data : Option JupData)
  | httpStatus (code : Nat)
  | netError
deriving Repr, DecidableEq

/-- `_fetch_from_jupiter`: single attempt, no retry; a truthy 200 payload
yields `(name, ticker, "solana")`, everything else `(None, None, None)`. -/
def fetch_from_jupiter (resp : JupResp) : TokenInfo :=
  match resp with
  | JupResp.ok (some d) =>
      (or_none d.name, (or_none d.symbol).map (fun s => "$" ++ s),
       some "solana")
  | JupResp.ok none => (none, none, none)
  | JupResp.httpStatus _ => (none, none, none)
  | JupResp.netError => (none, none, none)

/-- Base58 alphabet used by `is_solana_address`. -/
def base58_chars : List Char :=
  "123456789ABCDEFGHJKLMNPQRSTUVWXYZabcdefghijkmnopqrstuvwxyz".toList

/-- `is_solana_address`: non-empty, not 0x-prefixed, length 32-44, all
characters in the base58 alphabet. -/
def is_solana_address (addr : String) : Bool :=
  if addr = "" then false
  else if addr.startsWith "0x" then false
  else if addr.length < 32 || 44 < addr.length then false
  else addr.toList.all (fun c => base58_chars.contains c)

/-- `if result[0] or result[1]:` — the resolution carries a name or a
ticker (provider outputs are already `or None` normalized, so truthiness is
`isSome`). -/
def truthy_info (t : TokenInfo) : Bool :=
  t.1.isSome || t.2.1.isSome

/-- Result of `get_token_info`: the returned triple, the updated
`TOKEN_INFO_CACHE`, and whether any provider was contacted. -/
structure ResolveOut where
  result : TokenInfo
  cache : List (String × TokenInfo)
  network_used : Bool

/-- `get_token_info`: cache check, then DexScreener with retries, then the
Jupiter fallback for Solana-shaped addresses; a result with a name or a
ticker is cached, a definitive not-found is returned as
`(None, None, None)` and not cached. -/
def get_token_info (cache : List (String × TokenInfo)) (dex : Nat → DexResp)
    (jup : JupResp) (addr : String) : ResolveOut :=
  match alookup cache addr with
  | some t => { result := t, cache := cache, network_used := false }
  | none =>
    let r := fetch_from_dexscreener dex
    let rt : TokenInfo := (r.name, r.ticker, r.chain)
    if truthy_info rt then
      { result := rt, cache := (addr, rt) :: cache, network_used := true }
    else if is_solana_address addr then
      let j := fetch_from_jupiter jup
      if truthy_info j then
        { result := j, cache := (addr, j) :: cache, network_used := true }
      else
        { result := (none, none, none), cache := cache, network_used := true }
    else
      { result := (none, none, none), cache := cache, network_used := true }

/-! ## Message handling (src/manager.py) -/

/-- The module-level mutable state of src/manager.py that `handle_message`
reads and writes: the allowed chats, the per-channel notification dedup map
`PROCESSED_CAS`, the tracker singleton, the metadata cache, the sleep
deadline, the bot start time, and the set of monitor tasks launched. -/
structure BotState where
  channel_ids : List Int
  processed_cas : List (String × List Int)
  tracker : TokenTracker
  token_info_cache : List (String × TokenInfo)
  sleep_until : Option Nat
  bot_start_time : Option Nat
  sessions : List String

/-- `is_sleeping`: a sleep deadline is set and lies in the future. -/
def is_sleeping (sleep_until : Option Nat) (now : Nat) : Bool :=
  match sleep_until with
  | none => false
  | some t => decide (now < t)

/-- The `msg_date < BOT_START_TIME` early return of `handle_message`
(applies only when both timestamps are known). -/
def msg_before_start (bot_start msg_date : Option Nat) : Bool :=
  match bot_start, msg_date with
  | some bs, some d => decide (d < bs)
  | _, _ => false

/-- `token in PROCESSED_CAS and chat_id in PROCESSED_CAS[token]`. -/
def processed_contains (p : List (String × List Int)) (tok : String)
    (chat : Int) : Bool :=
  match alookup p tok with
  | some chats => chats.contains chat
  | none => false

/-- `PROCESSED_CAS.setdefault(token, set()).add(chat_id)` as written in the
source (create the entry if needed, then add the chat). -/
def processed_add (p : List (String × List Int)) (tok : String) (chat : Int) :
    List (String × List Int) :=
  match alookup p tok with
  | some _ => mapEntry tok (fun chats => insertChat chat chats) p
  | none => p ++ [(tok, [chat])]

/-- `display = ticker or token_name or None` (`start_monitoring`). -/
def py_or (a b : Option String) : Option String :=
  match or_none a with
  | some s => some s
  | none => or_none b

/-- `handle_message` from the sleep/dedup gates onward, together with the
`start_monitoring` / `TokenMonitor.__init__` / `initial_count` sequence it
triggers for a fresh token.  `token` is the outcome of `extract_token` on
the message text (`none` covers both an empty text and no address found);
`dex`, `jup` and `search_results` are the external provider outcomes the
call would observe.  Returns the new state and the events emitted. -/
def handle_message (st : BotState) (now : Nat) (msg_date : Option Nat)
    (chat_id : Int) (token : Option String) (dex : Nat → DexResp)
    (jup : JupResp) (search_results : List Tweet) : BotState × List BotEvent :=
  if msg_before_start st.bot_start_time msg_date then (st, [])
  else if st.channel_ids ≠ [] ∧ chat_id ∉ st.channel_ids then (st, [])
  else if is_sleeping st.sleep_until now then (st, [])
  else
    match token with
    | none => (st, [])
    | some tok =>
      if processed_contains st.processed_cas tok chat_id then (st, [])
      else
        let processed := processed_add st.processed_cas tok chat_id
        match get_stats st.tracker tok with
        | some _ =>
            ({ st with processed_cas := processed,
                       tracker := add_channel_to_token st.tracker tok chat_id },
             [BotEvent.initialNotification chat_id tok])
        | none =>
            let r := get_token_info st.token_info_cache dex jup tok
            let display := py_or r.result.2.1 r.result.1
            let tr1 := (add_token st.tracker tok display display chat_id now).1
            let ic := initial_count [] search_results
            let tr2 := update_initial tr1 tok ic.1.1 ic.1.2.1 ic.1.2.2
            ({ st with processed_cas := processed, tracker := tr2,
                       token_info_cache := r.cache,
                       sessions := st.sessions ++ [tok] },
             [BotEvent.initialNotification chat_id tok,
              BotEvent.monitorStarted tok])

/-! ## Lemmas about the association-list registry -/

theorem alookup_mapEntry {β : Type} (k a : String) (f : β → β)
    (l : List (String × β)) :
    alookup (mapEntry k f l) a =
      if a = k then (alookup l a).map f else alookup l a := by
  induction l with
  | nil => by_cases h : a = k <;> simp [mapEntry, alookup, h]
  | cons e es ih =>
    simp only [mapEntry, List.map_cons] at ih ⊢
    by_cases h1 : e.1 = k <;> by_cases h2 : a = k <;> by_cases h3 : e.1 = a <;>
      simp_all [alookup]

theorem mapEntry_of_absent {β : Type} (k : String) (f : β → β)
    (l : List (String × β)) (h : alookup l k = none) :
    mapEntry k f l = l := by
  induction l with
  | nil => rfl
  | cons e es ih =>
    by_cases h1 : e.1 = k
    · simp [alookup, h1] at h
    · simp [alookup, h1] at h
      simp [mapEntry, h1] at ih ⊢
      exact ih h

/-- Reading back the modified token after a registry update. -/
theorem get_stats_modifyTok (tr : TokenTracker) (k : String)
    (f : TokenStats → TokenStats) :
    get_stats (modifyTok tr k f) k = (get_stats tr k).map f := by
  simp [get_stats, modifyTok, alookup_mapEntry]

/-- A registry update under an absent key is the identity. -/
theorem modifyTok_of_absent (tr : TokenTracker) (k : String)
    (f : TokenStats → TokenStats) (h : get_stats tr k = none) :
    modifyTok tr k f = tr := by
  simp [modifyTok, mapEntry_of_absent k f tr.tokens h]

/-- C10: calling `update_initial`, `update_poll` or `mark_complete` with a
token address that is not registered raises no error and leaves the
registry completely unchanged. -/
theorem unknown_token_updates_noop (tr : TokenTracker) (addr : String)
    (t v n nt nv nn : Nat) (h : get_stats tr addr = none) :
    update_initial tr addr t v n = tr ∧
    update_poll tr addr nt nv nn = tr ∧
    mark_complete tr addr = tr :=
  ⟨modifyTok_of_absent tr addr _ h, modifyTok_of_absent tr addr _ h,
   modifyTok_of_absent tr addr _ h⟩

theorem unknown_token_updates_noop_witness :
    get_stats ⟨[], "leaderboard"⟩ "A" = none ∧
    (update_initial ⟨[], "leaderboard"⟩ "A" 1 2 3 = ⟨[], "leaderboard"⟩ ∧
     update_poll ⟨[], "leaderboard"⟩ "A" 4 5 6 = ⟨[], "leaderboard"⟩ ∧
     mark_complete ⟨[], "leaderboard"⟩ "A" = ⟨[], "leaderboard"⟩) :=
  ⟨rfl, unknown_token_updates_noop ⟨[], "leaderboard"⟩ "A" 1 2 3 4 5 6 rfl⟩

/-! ## C1: additivity of the running totals -/

theorem get_stats_update_poll (tr : TokenTracker) (addr : String)
    (d v n : Nat) :
    get_stats (update_poll tr addr d v n) addr =
      (get_stats tr addr).map (fun s => { s with
        last_poll_tweets := d, last_poll_verified := v,
        last_poll_non_verified := n,
        total_tweets := s.total_tweets + d,
        total_verified := s.total_verified + v,
        total_non_verified := s.total_non_verified + n }) :=
  get_stats_modifyTok tr addr _

theorem get_stats_update_initial (tr : TokenTracker) (addr : String)
    (t v n : Nat) :
    get_stats (update_initial tr addr t v n) addr =
      (get_stats tr addr).map (fun s => { s with
        initial_tweets := t, initial_verified := v,
        initial_non_verified := n,
        total_tweets := t, total_verified := v,
        total_non_verified := n }) :=
  get_stats_modifyTok tr addr _

theorem run_cycles_totals (addr : String) (ds : List (Nat × Nat × Nat)) :
    ∀ (tr : TokenTracker) (s : TokenStats), get_stats tr addr = some s →
      ∃ s', get_stats (run_cycles tr addr ds) addr = some s' ∧
        s'.total_tweets = s.total_tweets + (ds.map (fun d => d.1)).sum ∧
        s'.total_verified = s.total_verified + (ds.map (fun d => d.2.1)).sum ∧
        s'.total_non_verified =
          s.total_non_verified + (ds.map (fun d => d.2.2)).sum := by
  induction ds with
  | nil => exact fun tr s h => ⟨s, h, by simp [run_cycles], by simp [run_cycles],
      by simp [run_cycles]⟩
  | cons d ds ih =>
    intro tr s h
    have h1 := get_stats_update_poll tr addr d.1 d.2.1 d.2.2
    rw [h] at h1
    obtain ⟨s', hs', e1, e2, e3⟩ := ih _ _ h1
    refine ⟨s', ?_, ?_, ?_, ?_⟩
    · simpa [run_cycles] using hs'
    · simp at e1; simp [e1]; omega
    · simp at e2; simp [e2]; omega
    · simp at e3; simp [e3]; omega

/-- C1: for a registered token, `update_initial t v n` followed by any
sequence of `update_poll` cycles leaves `total_tweets` equal to `t` plus
the sum of the per-cycle tweet deltas, and likewise for the verified and
non-verified running totals. -/
theorem token_running_totals_additive (tr : TokenTracker) (addr : String)
    (t v n : Nat) (ds : List (Nat × Nat × Nat)) (s0 : TokenStats)
    (h : get_stats tr addr = some s0) :
    ∃ s, get_stats (run_cycles (update_initial tr addr t v n) addr ds) addr
          = some s ∧
      s.total_tweets = t + (ds.map (fun d => d.1)).sum ∧
      s.total_verified = v + (ds.map (fun d => d.2.1)).sum ∧
      s.total_non_verified = n + (ds.map (fun d => d.2.2)).sum := by
  have h1 := get_stats_update_initial tr addr t v n
  rw [h] at h1
  obtain ⟨s', hs', e1, e2, e3⟩ := run_cycles_totals addr ds _ _ h1
  exact ⟨s', hs', by simpa using e1, by simpa using e2, by simpa using e3⟩

theorem token_running_totals_additive_witness :
    get_stats ⟨[("T", ⟨"T", none, none, [7], 0, 0, 0, 0, 0, 0, 0, 0, 0, 0,
        true⟩)], "leaderboard"⟩ "T" = some ⟨"T", none, none, [7], 0, 0, 0, 0,
        0, 0, 0, 0, 0, 0, true⟩ ∧
    ∃ s, get_stats (run_cycles (update_initial ⟨[("T", ⟨"T", none, none, [7],
          0, 0, 0, 0, 0, 0, 0, 0, 0, 0, true⟩)], "leaderboard"⟩ "T" 10 4 6)
          "T" [(2, 1, 1), (3, 0, 3)]) "T" = some s ∧
      s.total_tweets = 10 + ([(2, 1, 1), (3, 0, 3)].map
        (fun d : Nat × Nat × Nat => d.1)).sum ∧
      s.total_verified = 4 + ([(2, 1, 1), (3, 0, 3)].map
        (fun d : Nat × Nat × Nat => d.2.1)).sum ∧
      s.total_non_verified = 6 + ([(2, 1, 1), (3, 0, 3)].map
        (fun d : Nat × Nat × Nat => d.2.2)).sum :=
  ⟨rfl, token_running_totals_additive _ "T" 10 4 6 _ _ rfl⟩

/-! ## Round-half-even: bounds, tie parity, monotonicity -/

theorem rhe_cases (n d : Nat) (hd : 0 < d) :
    ∃ q r, r < d ∧ n = d * q + r ∧
      rhe n d = (if 2 * r < d then q
                 else if d < 2 * r then q + 1
                 else if q % 2 = 0 then q else q + 1) := by
  refine ⟨n / d, n % d, Nat.mod_lt n hd, by rw [Nat.div_add_mod], ?_⟩
  rfl

theorem rhe_ub (n d : Nat) (hd : 0 < d) : 2 * n ≤ d * (2 * rhe n d + 1) := by
  obtain ⟨q, r, hrd, rfl, hval⟩ := rhe_cases n d hd
  rw [hval]
  split_ifs with hc1 hc2 hc3 <;> nlinarith

theorem rhe_lb (n d : Nat) (hd : 0 < d) : d * (2 * rhe n d) ≤ 2 * n + d := by
  obtain ⟨q, r, hrd, rfl, hval⟩ := rhe_cases n d hd
  rw [hval]
  split_ifs with hc1 hc2 hc3 <;> nlinarith

theorem rhe_lb_eq_even (n d : Nat) (hd : 0 < d)
    (h : d * (2 * rhe n d) = 2 * n + d) : rhe n d % 2 = 0 := by
  obtain ⟨q, r, hrd, rfl, hval⟩ := rhe_cases n d hd
  rw [hval] at h ⊢
  split_ifs at h ⊢ with hc1 hc2 hc3
  · exfalso; nlinarith
  · exfalso; nlinarith
  · exact hc3
  · omega

theorem rhe_ub_eq_even (n d : Nat) (hd : 0 < d)
    (h : 2 * n = d * (2 * rhe n d + 1)) : rhe n d % 2 = 0 := by
  obtain ⟨q, r, hrd, rfl, hval⟩ := rhe_cases n d hd
  rw [hval] at h ⊢
  split_ifs at h ⊢ with hc1 hc2 hc3
  · exfalso; nlinarith
  · exfalso; nlinarith
  · exact hc3
  · exfalso; nlinarith

theorem rhe_mono (n1 d1 n2 d2 : Nat) (h1 : 0 < d1) (h2 : 0 < d2)
    (h : n1 * d2 ≤ n2 * d1) : rhe n1 d1 ≤ rhe n2 d2 := by
  by_contra hc
  push_neg at hc
  have F1 : d1 * (2 * rhe n1 d1) ≤ 2 * n1 + d1 := rhe_lb n1 d1 h1
  have F2 : 2 * n2 ≤ d2 * (2 * rhe n2 d2 + 1) := rhe_ub n2 d2 h2
  have pa : d1 * (2 * rhe n1 d1) = 2 * n1 + d1 → rhe n1 d1 % 2 = 0 :=
    rhe_lb_eq_even n1 d1 h1
  have pb : 2 * n2 = d2 * (2 * rhe n2 d2 + 1) → rhe n2 d2 % 2 = 0 :=
    rhe_ub_eq_even n2 d2 h2
  generalize rhe n1 d1 = a at hc F1 pa
  generalize rhe n2 d2 = b at hc F2 pb
  have hba : b + 1 ≤ a := hc
  have F1z : (d1 : ℤ) * (2 * a) ≤ 2 * n1 + d1 := by exact_mod_cast F1
  have F2z : (2 : ℤ) * n2 ≤ d2 * (2 * b + 1) := by exact_mod_cast F2
  have hz : (n1 : ℤ) * d2 ≤ n2 * d1 := by exact_mod_cast h
  have hbaz : (b : ℤ) + 1 ≤ a := by exact_mod_cast hba
  have h1z : (0 : ℤ) < d1 := by exact_mod_cast h1
  have h2z : (0 : ℤ) < d2 := by exact_mod_cast h2
  have hw : (0 : ℤ) < d1 * d2 := mul_pos h1z h2z
  -- the squeeze chain in ℤ (all terms linear in the monomials
  -- a*d1*d2, b*d1*d2, n1*d2, n2*d1, d1*d2)
  have g1 : ((d1 : ℤ) * (2 * a)) * d2 ≤ ((2 : ℤ) * n1 + d1) * d2 :=
    mul_le_mul_of_nonneg_right F1z (le_of_lt h2z)
  have g2 : ((2 : ℤ) * n2) * d1 ≤ ((d2 : ℤ) * (2 * b + 1)) * d1 :=
    mul_le_mul_of_nonneg_right F2z (le_of_lt h1z)
  have g3 : (2 : ℤ) * (n1 * d2) ≤ 2 * (n2 * d1) := by linarith
  have g4 : ((d1 : ℤ) * d2) * (2 * b + 2) ≤ ((d1 : ℤ) * d2) * (2 * a) :=
    mul_le_mul_of_nonneg_left (by linarith) (le_of_lt hw)
  -- the chain is tight everywhere
  have eq1 : ((d1 : ℤ) * (2 * a)) * d2 = ((2 : ℤ) * n1 + d1) * d2 := by
    refine le_antisymm g1 ?_
    nlinarith [g2, g3, g4]
  have eq2 : ((2 : ℤ) * n2) * d1 = ((d2 : ℤ) * (2 * b + 1)) * d1 := by
    refine le_antisymm g2 ?_
    nlinarith [g1, g3, g4]
  have eq3 : ((d1 : ℤ) * d2) * (2 * a) = ((d1 : ℤ) * d2) * (2 * b + 2) := by
    refine le_antisymm ?_ g4
    nlinarith [eq1, g3, eq2]
  -- extract the component equalities by cancelling positive factors
  have E1 : d1 * (2 * a) = 2 * n1 + d1 := by
    have hq := mul_right_cancel₀ (ne_of_gt h2z) eq1
    exact_mod_cast hq
  have E2 : 2 * n2 = d2 * (2 * b + 1) := by
    have hq := mul_right_cancel₀ (ne_of_gt h1z) eq2
    exact_mod_cast hq
  have E3 : a = b + 1 := by
    have h2ab : (2 : ℤ) * a = 2 * b + 2 := mul_left_cancel₀ (ne_of_gt hw) eq3
    have hab : (a : ℤ) = b + 1 := by linarith
    exact_mod_cast hab
  have qa : a % 2 = 0 := pa E1
  have qb : b % 2 = 0 := pb E2
  omega

/-! ## C4: time decay of the rank score -/

/-- C4 counterexample: a token with one mention monitored for 100 hours has
rank score `round(1/101, 1) = 0.0`; after 200 hours (elapsed hours doubled,
no new mentions) the score is `round(1/201, 1) = 0.0` — unchanged, not
strictly lower, because the code rounds the rate to one decimal before
ranking. -/
theorem rank_decay_strict_refuted :
    get_monitoring_minutes 720000 ⟨"T", none, none, [1], 0, 0, 0, 0, 1, 0, 1,
        0, 0, 0, true⟩ =
      2 * get_monitoring_minutes 360000 ⟨"T", none, none, [1], 0, 0, 0, 0, 1,
        0, 1, 0, 0, 0, true⟩ ∧
    get_average_tenths 720000 ⟨"T", none, none, [1], 0, 0, 0, 0, 1, 0, 1, 0,
        0, 0, true⟩ =
      get_average_tenths 360000 ⟨"T", none, none, [1], 0, 0, 0, 0, 1, 0, 1, 0,
        0, 0, true⟩ := by
  constructor <;> decide

/-- C4 (amended): for a fixed `total_tweets` the rounded rank score
`get_average_tweet_count` is monotonically non-increasing in the elapsed
monitoring time, and doubling a positive elapsed time with no new mentions
strictly lowers the exact (unrounded) average mention rate — the rounded
score the code ranks by can stay equal, as the counterexample shows. -/
theorem rank_score_time_decay (s : TokenStats) (now now' : Nat) :
    (get_monitoring_minutes now s ≤ get_monitoring_minutes now' s →
      get_average_tenths now' s ≤ get_average_tenths now s) ∧
    (0 < s.total_tweets → 0 < get_monitoring_minutes now s →
      get_monitoring_minutes now' s = 2 * get_monitoring_minutes now s →
      average_rate now' s < average_rate now s) := by
  constructor
  · intro hm
    unfold get_average_tenths
    apply rhe_mono
    · omega
    · omega
    · exact Nat.mul_le_mul_left _ (by omega)
  · intro ht hm hdouble
    unfold average_rate get_time_factor
    rw [hdouble]
    have htq : (0 : ℚ) < (s.total_tweets : ℚ) := by exact_mod_cast ht
    have hmq : (0 : ℚ) < (get_monitoring_minutes now s : ℚ) := by
      exact_mod_cast hm
    have hd1 : (0 : ℚ) < 1 + (get_monitoring_minutes now s : ℚ) / 60 := by
      positivity
    have hlt : 1 + (get_monitoring_minutes now s : ℚ) / 60 <
        1 + ((2 * get_monitoring_minutes now s : Nat) : ℚ) / 60 := by
      push_cast
      linarith
    exact div_lt_div_of_pos_left htq hd1 hlt

theorem rank_score_time_decay_witness :
    (get_monitoring_minutes 3600 ⟨"W", none, none, [1], 0, 0, 0, 0, 1, 0, 1,
        0, 0, 0, true⟩ ≤ get_monitoring_minutes 7200 ⟨"W", none, none, [1],
        0, 0, 0, 0, 1, 0, 1, 0, 0, 0, true⟩ ∧
      get_average_tenths 7200 ⟨"W", none, none, [1], 0, 0, 0, 0, 1, 0, 1, 0,
        0, 0, true⟩ ≤ get_average_tenths 3600 ⟨"W", none, none, [1], 0, 0, 0,
        0, 1, 0, 1, 0, 0, 0, true⟩) ∧
    average_rate 7200 ⟨"W", none, none, [1], 0, 0, 0, 0, 1, 0, 1, 0, 0, 0,
        true⟩ <
      average_rate 3600 ⟨"W", none, none, [1], 0, 0, 0, 0, 1, 0, 1, 0, 0, 0,
        true⟩ :=
  ⟨⟨by decide,
    (rank_score_time_decay ⟨"W", none, none, [1], 0, 0, 0, 0, 1, 0, 1, 0, 0,
      0, true⟩ 3600 7200).1 (by decide)⟩,
   (rank_score_time_decay ⟨"W", none, none, [1], 0, 0, 0, 0, 1, 0, 1, 0, 0,
      0, true⟩ 3600 7200).2 (by decide) (by decide) (by decide)⟩

/-! ## C2: the ranked active view -/

theorem mem_insertDesc (key : TokenStats → Nat) (x : TokenStats)
    (l : List TokenStats) (a : TokenStats) :
    a ∈ insertDesc key x l ↔ a = x ∨ a ∈ l := by
  induction l with
  | nil => simp [insertDesc]
  | cons y ys ih =>
    by_cases h : key y < key x
    · simp [insertDesc, h]
    · simp [insertDesc, h, ih]
      tauto

theorem pairwise_insertDesc (key : TokenStats → Nat) (x : TokenStats)
    (l : List TokenStats) (hl : l.Pairwise (rank_order key))
    (hx : ∀ a ∈ l, key a = key x → a.start_time ≤ x.start_time) :
    (insertDesc key x l).Pairwise (rank_order key) := by
  induction l with
  | nil => simp [insertDesc]
  | cons y ys ih =>
    rcases List.pairwise_cons.mp hl with ⟨hy, hys⟩
    by_cases h : key y < key x
    · simp only [insertDesc, if_pos h]
      refine List.Pairwise.cons ?_ hl
      intro z hz
      rcases List.mem_cons.mp hz with rfl | hz
      · exact Or.inl h
      · rcases hy z hz with h2 | ⟨h2, _⟩
        · exact Or.inl (by omega)
        · exact Or.inl (by omega)
    · simp only [insertDesc, if_neg h]
      refine List.Pairwise.cons ?_
        (ih hys (fun a ha hk => hx a (List.mem_cons_of_mem y ha) hk))
      intro z hz
      rcases (mem_insertDesc key x ys z).mp hz with rfl | hz
      · rcases Nat.lt_or_ge (key z) (key y) with h2 | h2
        · exact Or.inl h2
        · have hxy : key z = key y := Nat.le_antisymm (Nat.not_lt.mp h) h2
          exact Or.inr ⟨hxy.symm, hx y (List.mem_cons_self y ys) hxy.symm⟩
      · exact hy z hz

theorem sortDesc_aux (key : TokenStats → Nat) :
    ∀ (l acc : List TokenStats), acc.Pairwise (rank_order key) →
      l.Pairwise (fun a b => a.start_time ≤ b.start_time) →
      (∀ a ∈ acc, ∀ b ∈ l, a.start_time ≤ b.start_time) →
      (l.foldl (fun acc x => insertDesc key x acc) acc).Pairwise
        (rank_order key) := by
  intro l
  induction l with
  | nil => intro acc h _ _; simpa using h
  | cons x xs ih =>
    intro acc hacc hl hcross
    rcases List.pairwise_cons.mp hl with ⟨hx, hxs⟩
    simp only [List.foldl_cons]
    apply ih
    · exact pairwise_insertDesc key x acc hacc
        (fun a ha _ => hcross a ha x (List.mem_cons_self x xs))
    · exact hxs
    · intro a ha b hb
      rcases (mem_insertDesc key x acc a).mp ha with rfl | ha
      · exact hx b hb
      · exact hcross a ha b (List.mem_cons_of_mem x hb)

theorem sortDesc_pairwise (key : TokenStats → Nat) (l : List TokenStats)
    (h : l.Pairwise (fun a b => a.start_time ≤ b.start_time)) :
    (sortDesc key l).Pairwise (rank_order key) :=
  sortDesc_aux key l [] (by simp) h (by simp)

theorem mem_sortDesc_aux (key : TokenStats → Nat) :
    ∀ (l acc : List TokenStats) (a : TokenStats),
      a ∈ l.foldl (fun acc x => insertDesc key x acc) acc ↔
        a ∈ l ∨ a ∈ acc := by
  intro l
  induction l with
  | nil => intro acc a; simp
  | cons x xs ih =>
    intro acc a
    simp only [List.foldl_cons, ih, mem_insertDesc, List.mem_cons]
    tauto

theorem mem_sortDesc (key : TokenStats → Nat) (l : List TokenStats)
    (a : TokenStats) : a ∈ sortDesc key l ↔ a ∈ l := by
  unfold sortDesc
  rw [mem_sortDesc_aux]
  simp

theorem pairwise_get_active_tokens (tr : TokenTracker) (cid : Option Int)
    (h : (tr.tokens.map (fun e => e.2)).Pairwise
      (fun a b => a.start_time ≤ b.start_time)) :
    (get_active_tokens tr cid).Pairwise
      (fun a b => a.start_time ≤ b.start_time) := by
  rcases cid with _ | c
  · exact List.Pairwise.sublist (List.filter_sublist _) h
  · simp only [get_active_tokens]
    split_ifs <;> exact List.Pairwise.sublist (List.filter_sublist _) h

/-- C2 counterexample: registry with token X (5 mentions, monitored 540
minutes, exact rate 0.5) registered before token Y (1 mention, monitored 58
minutes, exact rate 30/59 ≈ 0.508).  Both rates round to 0.5, so the code's
stable sort keeps registration order and returns X before Y, although Y has
the strictly larger exact average mention rate — the view is *not* ordered
descending by `runningTotal / timeFactor`. -/
theorem ranked_by_exact_rate_refuted :
    get_top_tokens ⟨[("X", ⟨"X", none, none, [1], 0, 0, 0, 0, 5, 0, 5, 0, 0,
        0, true⟩), ("Y", ⟨"Y", none, none, [1], 28920, 0, 0, 0, 1, 0, 1, 0,
        0, 0, true⟩)], "leaderboard"⟩ 30 none 32400 =
      [⟨"X", none, none, [1], 0, 0, 0, 0, 5, 0, 5, 0, 0, 0, true⟩,
       ⟨"Y", none, none, [1], 28920, 0, 0, 0, 1, 0, 1, 0, 0, 0, true⟩] ∧
    average_rate 32400 ⟨"X", none, none, [1], 0, 0, 0, 0, 5, 0, 5, 0, 0, 0,
        true⟩ <
      average_rate 32400 ⟨"Y", none, none, [1], 28920, 0, 0, 0, 1, 0, 1, 0,
        0, 0, true⟩ := by
  constructor
  · decide
  · unfold average_rate get_time_factor get_monitoring_minutes
    norm_num

/-- C2 (amended): for a registry whose entries are in registration order
(non-decreasing `start_time`, as `add_token` produces), the ranked active
view for any channel returns active, channel-visible tokens ordered
descending by the *rounded* average mention rate
`round(runningTotal / timeFactor, 1)` that the code computes, ties in the
rounded rate keeping the earlier `start_time` first; tokens whose exact
rates differ but round to the same tenth keep registration order instead of
exact-rate order. -/
theorem ranked_by_rounded_rate (tr : TokenTracker) (limit : Nat)
    (cid : Option Int) (now : Nat)
    (h : (tr.tokens.map (fun e => e.2)).Pairwise
      (fun a b => a.start_time ≤ b.start_time)) :
    (get_top_tokens tr limit cid now).Pairwise
      (rank_order (get_average_tenths now)) ∧
    ∀ s ∈ get_top_tokens tr limit cid now, s ∈ get_active_tokens tr cid := by
  constructor
  · have hact := pairwise_get_active_tokens tr cid h
    have hs := sortDesc_pairwise (get_average_tenths now) _ hact
    exact List.Pairwise.sublist (List.take_sublist _ _) hs
  · intro s hs
    have hmem : s ∈ sortDesc (get_average_tenths now)
        (get_active_tokens tr cid) := List.mem_of_mem_take hs
    exact (mem_sortDesc _ _ s).mp hmem

theorem ranked_by_rounded_rate_witness :
    (get_top_tokens ⟨[("X", ⟨"X", none, none, [1], 0, 0, 0, 0, 5, 0, 5, 0, 0,
        0, true⟩), ("Y", ⟨"Y", none, none, [1], 28920, 0, 0, 0, 1, 0, 1, 0,
        0, 0, true⟩)], "leaderboard"⟩ 30 none 32400).Pairwise
      (rank_order (get_average_tenths 32400)) ∧
    ∀ s ∈ get_top_tokens ⟨[("X", ⟨"X", none, none, [1], 0, 0, 0, 0, 5, 0, 5,
        0, 0, 0, true⟩), ("Y", ⟨"Y", none, none, [1], 28920, 0, 0, 0, 1, 0,
        1, 0, 0, 0, true⟩)], "leaderboard"⟩ 30 none 32400,
      s ∈ get_active_tokens ⟨[("X", ⟨"X", none, none, [1], 0, 0, 0, 0, 5, 0,
        5, 0, 0, 0, true⟩), ("Y", ⟨"Y", none, none, [1], 28920, 0, 0, 0, 1,
        0, 1, 0, 0, 0, true⟩)], "leaderboard"⟩ none :=
  ranked_by_rounded_rate _ 30 none 32400 (by decide)

/-! ## C3: primary-provider retry and backoff -/

theorem fetch_dex_go_trace (resps : Nat → DexResp) :
    ∀ fuel k,
      (fetch_dex_go resps fuel k).attempts ≤ fuel ∧
      (fetch_dex_go resps fuel k).sleeps =
        ((List.range (fetch_dex_go resps fuel k).attempts).map
          (fun i => sleep_schedule (k + i) (resps (k + i)))).flatten := by
  intro fuel
  induction fuel with
  | zero => intro k; simp [fetch_dex_go]
  | succ fuel ih =>
    intro k
    obtain ⟨iha, ihs⟩ := ih (k + 1)
    have key : ∀ i, sleep_schedule (k + (i + 1)) (resps (k + (i + 1))) =
        sleep_schedule (k + 1 + i) (resps (k + 1 + i)) := fun i => by
      have h : k + (i + 1) = k + 1 + i := by omega
      rw [h]
    rw [fetch_dex_go.eq_def]
    dsimp only
    cases hr : resps k with
    | ok pairs =>
      cases pairs <;>
        simp [sleep_schedule, hr, List.range_succ]
    | httpStatus c =>
      dsimp only
      by_cases hc : c = 429
      · subst hc
        rw [if_pos rfl]
        refine ⟨by dsimp only; omega, ?_⟩
        dsimp only
        rw [List.range_succ_eq_map, ihs]
        simp only [List.map_cons, List.flatten_cons, Nat.add_zero, hr,
          List.map_map]
        simp only [Function.comp_def]
        simp only [Nat.succ_eq_add_one, key]
        rfl
      · rw [if_neg hc]
        by_cases hk : k < 2
        · rw [if_pos hk]
          refine ⟨by dsimp only; omega, ?_⟩
          dsimp only
          rw [List.range_succ_eq_map, ihs]
          simp only [List.map_cons, List.flatten_cons, Nat.add_zero, hr,
            List.map_map]
          simp only [Function.comp_def]
          simp only [Nat.succ_eq_add_one, key]
          simp [sleep_schedule, hc, hk]
        · rw [if_neg hk]
          refine ⟨by dsimp only; omega, ?_⟩
          simp [sleep_schedule, hc, hk, hr, List.range_succ]
    | timeout =>
      dsimp only
      by_cases hk : k < 2
      · rw [if_pos hk]
        refine ⟨by dsimp only; omega, ?_⟩
        dsimp only
        rw [List.range_succ_eq_map, ihs]
        simp only [List.map_cons, List.flatten_cons, Nat.add_zero, hr,
          List.map_map]
        simp only [Function.comp_def]
        simp only [Nat.succ_eq_add_one, key]
        simp [sleep_schedule, hk]
      · rw [if_neg hk]
        refine ⟨by dsimp only; omega, ?_⟩
        simp [sleep_schedule, hk, hr, List.range_succ]
    | netError =>
      dsimp only
      by_cases hk : k < 2
      · rw [if_pos hk]
        refine ⟨by dsimp only; omega, ?_⟩
        dsimp only
        rw [List.range_succ_eq_map, ihs]
        simp only [List.map_cons, List.flatten_cons, Nat.add_zero, hr,
          List.map_map]
        simp only [Function.comp_def]
        simp only [Nat.succ_eq_add_one, key]
        simp [sleep_schedule, hk]
      · rw [if_neg hk]
        refine ⟨by dsimp only; omega, ?_⟩
        simp [sleep_schedule, hk, hr, List.range_succ]

/-- C3 counterexample: with the primary provider answering HTTP 500 on every
attempt, the resolver makes 3 attempts (sleeping 5 s after each of the
first two), not the 2 attempts that "retries once more and then gives up"
prescribes. -/
theorem dex_persistent_500_three_attempts :
    (fetch_from_dexscreener (fun _ => DexResp.httpStatus 500)).attempts = 3 ∧
    (fetch_from_dexscreener (fun _ => DexResp.httpStatus 500)).sleeps
      = [5, 5] := by
  exact ⟨rfl, rfl⟩

/-- C3 (amended): the primary-provider fetch makes at most 3 HTTP attempts,
and its sleeps are exactly, in order: `30 * k` seconds after a 429 on
attempt `k` (1-based, even when it was the last attempt), and 5 seconds
after a timeout or any other non-2xx status on attempts 1 and 2 (no sleep
when such a failure ends the third attempt, where the resolver gives
up). -/
theorem dex_retry_schedule (resps : Nat → DexResp) :
    (fetch_from_dexscreener resps).attempts ≤ 3 ∧
    (fetch_from_dexscreener resps).sleeps =
      ((List.range (fetch_from_dexscreener resps).attempts).map
        (fun i => sleep_schedule i (resps i))).flatten := by
  have h := fetch_dex_go_trace resps 3 0
  simpa [fetch_from_dexscreener] using h

/-! ## C6: the dedup set never counts a mention twice -/

theorem poll_search_foldl (i : Nat) :
    ∀ (c : List Tweet) (acc : PollAcc),
      (∀ x ∈ acc.seen_ids, x ∈ (c.foldl poll_step acc).seen_ids) ∧
      batch_id_count i (c.foldl poll_step acc).new_tweets =
        batch_id_count i acc.new_tweets +
          (if i ∈ (c.foldl poll_step acc).seen_ids ∧ i ∉ acc.seen_ids
           then 1 else 0) := by
  intro c
  induction c with
  | nil =>
    intro acc
    refine ⟨fun x hx => hx, ?_⟩
    simp
  | cons t c ih =>
    intro acc
    by_cases hseen : t.id ∈ acc.seen_ids
    · have hstep : poll_step acc t = acc := by simp [poll_step, hseen]
      simpa [hstep] using ih acc
    · have hstep : poll_step acc t =
          { seen_ids := t.id :: acc.seen_ids,
            new_tweets := acc.new_tweets ++ [t],
            new_verified := acc.new_verified + (if t.verified then 1 else 0),
            new_non_verified :=
              acc.new_non_verified + (if t.verified then 0 else 1) } := by
        simp [poll_step, hseen]
      obtain ⟨ihsub, ihcount⟩ := ih (poll_step acc t)
      have hsub : ∀ x ∈ acc.seen_ids,
          x ∈ ((t :: c).foldl poll_step acc).seen_ids := by
        intro x hx
        simp only [List.foldl_cons]
        exact ihsub x (by simp [hstep, hx])
      refine ⟨hsub, ?_⟩
      simp only [List.foldl_cons] at ihcount ⊢
      by_cases hid : t.id = i
      · subst hid
        have hc1 : batch_id_count t.id (poll_step acc t).new_tweets =
            batch_id_count t.id acc.new_tweets + 1 := by
          simp [hstep, batch_id_count]
        have hmem : t.id ∈ (poll_step acc t).seen_ids := by
          simp [hstep]
        have hfin : t.id ∈ (c.foldl poll_step (poll_step acc t)).seen_ids :=
          ihsub t.id hmem
        rw [ihcount, hc1]
        simp [hmem, hfin, hseen]
      · have hc1 : batch_id_count i (poll_step acc t).new_tweets =
            batch_id_count i acc.new_tweets := by
          simp [hstep, batch_id_count, hid]
        have hmem : i ∈ (poll_step acc t).seen_ids ↔ i ∈ acc.seen_ids := by
          simp [hstep]
          intro hcontra
          exact absurd hcontra.symm hid
        rw [ihcount, hc1]
        by_cases hia : i ∈ acc.seen_ids <;> simp [hmem, hia]

theorem poll_search_count (i : Nat) (seen : List Nat) (c : List Tweet) :
    (∀ x ∈ seen, x ∈ (poll_search seen c).seen_ids) ∧
    batch_id_count i (poll_search seen c).new_tweets =
      (if i ∈ (poll_search seen c).seen_ids ∧ i ∉ seen then 1 else 0) := by
  have h := poll_search_foldl i c
    { seen_ids := seen, new_tweets := [], new_verified := 0,
      new_non_verified := 0 }
  obtain ⟨h1, h2⟩ := h
  refine ⟨fun x hx => h1 x hx, ?_⟩
  simpa [poll_search, batch_id_count] using h2

theorem run_polls_count (i : Nat) :
    ∀ (cycles : List (List Tweet)) (seen : List Nat),
      (∀ x ∈ seen, x ∈ (run_polls seen cycles).1) ∧
      id_count i (run_polls seen cycles).2 =
        (if i ∈ (run_polls seen cycles).1 ∧ i ∉ seen then 1 else 0) := by
  intro cycles
  induction cycles with
  | nil =>
    intro seen
    refine ⟨fun x hx => by simpa [run_polls] using hx, ?_⟩
    simp [run_polls, id_count]
  | cons c cs ih =>
    intro seen
    obtain ⟨hc1, hc2⟩ := poll_search_count i seen c
    obtain ⟨hr1, hr2⟩ := ih (poll_search seen c).seen_ids
    have hsub : ∀ x ∈ seen, x ∈ (run_polls seen (c :: cs)).1 := by
      intro x hx
      simp only [run_polls]
      exact hr1 x (hc1 x hx)
    refine ⟨hsub, ?_⟩
    have hcons : id_count i (run_polls seen (c :: cs)).2 =
        batch_id_count i (poll_search seen c).new_tweets +
          id_count i (run_polls (poll_search seen c).seen_ids cs).2 := by
      simp [run_polls, id_count]
    have hrw : (run_polls (poll_search seen c).seen_ids cs).1 =
        (run_polls seen (c :: cs)).1 := by simp [run_polls]
    rw [hcons, hc2, hr2, hrw]
    by_cases h1 : i ∈ seen
    · have h2 : i ∈ (poll_search seen c).seen_ids := hc1 i h1
      have h3 : i ∈ (run_polls seen (c :: cs)).1 := hsub i h1
      simp [h1, h2, h3]
    · by_cases h2 : i ∈ (poll_search seen c).seen_ids
      · have h3 : i ∈ (run_polls seen (c :: cs)).1 := by
          simp only [run_polls]
          exact hr1 i h2
        simp [h1, h2, h3]
      · simp [h1, h2]

theorem initial_count_seen (results : List Tweet) :
    ∀ (acc : (Nat × Nat × Nat) × List Nat),
      (∀ x ∈ acc.2, x ∈ (results.foldl initial_count_step acc).2) ∧
      (∀ t ∈ results, t.id ∈ (results.foldl initial_count_step acc).2) := by
  induction results with
  | nil => intro acc; exact ⟨fun x hx => hx, by simp⟩
  | cons t ts ih =>
    intro acc
    obtain ⟨ih1, ih2⟩ := ih (initial_count_step acc t)
    refine ⟨?_, ?_⟩
    · intro x hx
      simp only [List.foldl_cons]
      exact ih1 x (by simp [initial_count_step, hx])
    · intro u hu
      rcases List.mem_cons.mp hu with rfl | hu
      · simp only [List.foldl_cons]
        exact ih1 u.id (by simp [initial_count_step])
      · simp only [List.foldl_cons]
        exact ih2 u hu

/-- C6: after the initial count seeds the dedup set, a mention id that is
in the session's dedup set is never counted by any later poll cycle (count
0 across all batches), an id first seen by some cycle is counted at most
once over the whole run, and every id returned by the initial search is in
the dedup set. -/
theorem dedup_never_recounted (init : List Tweet) (seen0 : List Nat)
    (cycles : List (List Tweet)) (i : Nat) :
    (∀ t ∈ init, t.id ∈ (initial_count seen0 init).2) ∧
    (i ∈ (initial_count seen0 init).2 →
      id_count i (run_polls (initial_count seen0 init).2 cycles).2 = 0) ∧
    id_count i (run_polls (initial_count seen0 init).2 cycles).2 ≤ 1 := by
  obtain ⟨h1, h2⟩ := run_polls_count i cycles (initial_count seen0 init).2
  refine ⟨(initial_count_seen init _).2, ?_, ?_⟩
  · intro hmem
    rw [h2]
    simp [hmem]
  · rw [h2]
    split_ifs <;> omega

theorem dedup_never_recounted_witness :
    (∀ t ∈ [Tweet.mk 1 true, Tweet.mk 2 false],
      t.id ∈ (initial_count [] [Tweet.mk 1 true, Tweet.mk 2 false]).2) ∧
    id_count 1 (run_polls (initial_count [] [Tweet.mk 1 true,
        Tweet.mk 2 false]).2
      [[Tweet.mk 1 true, Tweet.mk 3 false], [Tweet.mk 3 false]]).2 = 0 ∧
    id_count 1 (run_polls (initial_count [] [Tweet.mk 1 true,
        Tweet.mk 2 false]).2
      [[Tweet.mk 1 true, Tweet.mk 3 false], [Tweet.mk 3 false]]).2 ≤ 1 := by
  obtain ⟨h1, h2, h3⟩ := dedup_never_recounted
    [Tweet.mk 1 true, Tweet.mk 2 false] []
    [[Tweet.mk 1 true, Tweet.mk 3 false], [Tweet.mk 3 false]] 1
  exact ⟨h1, h2 (by decide), h3⟩

/-! ## C9: leaderboard mode suppresses per-cycle messages but not updates -/

/-- C9: in leaderboard mode a poll cycle dispatches no message, yet the
registry still absorbs the cycle: the running total grows by the size of
the deduplicated batch and the last-cycle counter is overwritten with it
(also for a batch of size 0). -/
theorem leaderboard_cycle_silent_update (tr : TokenTracker) (token : String)
    (seen : List Nat) (results : List Tweet) (s : TokenStats)
    (h : get_stats tr token = some s) :
    (poll_new_mentions "leaderboard" tr token seen results).2.2 = [] ∧
    ∃ s', get_stats (poll_new_mentions "leaderboard" tr token seen
        results).2.1 token = some s' ∧
      s'.total_tweets =
        s.total_tweets + (poll_search seen results).new_tweets.length ∧
      s'.last_poll_tweets = (poll_search seen results).new_tweets.length := by
  by_cases hb : (poll_search seen results).new_tweets = []
  · refine ⟨by simp [poll_new_mentions, hb], ?_⟩
    have hx : get_stats (poll_new_mentions "leaderboard" tr token seen
        results).2.1 token = get_stats (update_poll tr token 0 0 0) token := by
      simp [poll_new_mentions, hb]
    rw [hx, get_stats_update_poll, h]
    exact ⟨_, rfl, by simp [hb], by simp [hb]⟩
  · refine ⟨by simp [poll_new_mentions, hb], ?_⟩
    have hx : get_stats (poll_new_mentions "leaderboard" tr token seen
        results).2.1 token =
        get_stats (update_poll tr token
          (poll_search seen results).new_tweets.length
          (poll_search seen results).new_verified
          (poll_search seen results).new_non_verified) token := by
      simp [poll_new_mentions, hb]
    rw [hx, get_stats_update_poll, h]
    exact ⟨_, rfl, by simp, by simp⟩

theorem leaderboard_cycle_silent_update_witness :
    get_stats ⟨[("T", ⟨"T", none, none, [7], 0, 3, 1, 2, 3, 1, 2, 0, 0, 0,
        true⟩)], "leaderboard"⟩ "T" = some ⟨"T", none, none, [7], 0, 3, 1, 2,
        3, 1, 2, 0, 0, 0, true⟩ ∧
    (poll_new_mentions "leaderboard" ⟨[("T", ⟨"T", none, none, [7], 0, 3, 1,
        2, 3, 1, 2, 0, 0, 0, true⟩)], "leaderboard"⟩ "T" [1, 2, 3]
        [Tweet.mk 4 true, Tweet.mk 1 false, Tweet.mk 5 false]).2.2 = [] ∧
    ∃ s', get_stats (poll_new_mentions "leaderboard" ⟨[("T", ⟨"T", none,
        none, [7], 0, 3, 1, 2, 3, 1, 2, 0, 0, 0, true⟩)], "leaderboard"⟩ "T"
        [1, 2, 3] [Tweet.mk 4 true, Tweet.mk 1 false,
        Tweet.mk 5 false]).2.1 "T" = some s' ∧
      s'.total_tweets = 3 + (poll_search [1, 2, 3] [Tweet.mk 4 true,
        Tweet.mk 1 false, Tweet.mk 5 false]).new_tweets.length ∧
      s'.last_poll_tweets = (poll_search [1, 2, 3] [Tweet.mk 4 true,
        Tweet.mk 1 false, Tweet.mk 5 false]).new_tweets.length := by
  refine ⟨rfl, ?_⟩
  exact leaderboard_cycle_silent_update
    ⟨[("T", ⟨"T", none, none, [7], 0, 3, 1, 2, 3, 1, 2, 0, 0, 0, true⟩)],
      "leaderboard"⟩ "T" [1, 2, 3]
    [Tweet.mk 4 true, Tweet.mk 1 false, Tweet.mk 5 false]
    ⟨"T", none, none, [7], 0, 3, 1, 2, 3, 1, 2, 0, 0, 0, true⟩ rfl

/-! ## C5: resolver caching policy -/

theorem get_token_info_hit (c : List (String × TokenInfo))
    (dex : Nat → DexResp) (jup : JupResp) (a : String) (t : TokenInfo)
    (h : alookup c a = some t) :
    get_token_info c dex jup a =
      { result := t, cache := c, network_used := false } := by
  simp [get_token_info, h]

theorem get_token_info_cache_shape (c : List (String × TokenInfo))
    (dex : Nat → DexResp) (jup : JupResp) (a : String) :
    (get_token_info c dex jup a).cache = c ∨
    ∃ x, (get_token_info c dex jup a).cache = (a, x) :: c ∧
      alookup c a = none := by
  rcases h : alookup c a with _ | t
  · simp only [get_token_info, h]
    split_ifs <;>
      first
        | exact Or.inl rfl
        | exact Or.inr ⟨_, rfl, by simp [h]⟩
  · simp [get_token_info, h]

theorem get_token_info_preserves (c : List (String × TokenInfo))
    (dex : Nat → DexResp) (jup : JupResp) (a addr : String) (t : TokenInfo)
    (h : alookup c addr = some t) :
    alookup (get_token_info c dex jup a).cache addr = some t := by
  rcases get_token_info_cache_shape c dex jup a with hs | ⟨x, hs, hnone⟩
  · rw [hs]; exact h
  · rw [hs]
    by_cases haa : a = addr
    · subst haa
      rw [h] at hnone
      exact absurd hnone (by simp)
    · simpa [alookup, haa] using h

/-- C5: resolving an address absent from the cache contacts the providers;
when the result carries a name or a ticker it is stored in the cache under
that address, and any call for an address present in the cache returns the
cached triple with no provider contact and an unchanged cache (cache
entries are preserved by all later calls, for any address); when the result
carries neither name nor ticker the triple is `(None, None, None)` and the
cache is unchanged, so a later call for the same address contacts the
providers again. -/
theorem resolver_caching (cache : List (String × TokenInfo))
    (dex : Nat → DexResp) (jup : JupResp) (addr : String)
    (h : alookup cache addr = none) :
    (get_token_info cache dex jup addr).network_used = true ∧
    (truthy_info (get_token_info cache dex jup addr).result = true →
      (get_token_info cache dex jup addr).cache =
        (addr, (get_token_info cache dex jup addr).result) :: cache) ∧
    (∀ (c2 : List (String × TokenInfo)) (dex2 : Nat → DexResp)
        (jup2 : JupResp) (a2 : String) (t : TokenInfo),
      alookup c2 addr = some t →
      get_token_info c2 dex2 jup2 addr =
        { result := t, cache := c2, network_used := false } ∧
      alookup (get_token_info c2 dex2 jup2 a2).cache addr = some t) ∧
    (truthy_info (get_token_info cache dex jup addr).result = false →
      (get_token_info cache dex jup addr).result = (none, none, none) ∧
      (get_token_info cache dex jup addr).cache = cache) := by
  refine ⟨?_, ?_, ?_, ?_⟩
  · simp only [get_token_info, h]
    split_ifs <;> rfl
  · intro htr
    simp only [get_token_info, h] at htr ⊢
    split_ifs at htr ⊢ <;> simp_all [truthy_info]
  · intro c2 dex2 jup2 a2 t ht
    exact ⟨get_token_info_hit c2 dex2 jup2 addr t ht,
      get_token_info_preserves c2 dex2 jup2 a2 addr t ht⟩
  · intro htr
    simp only [get_token_info, h] at htr ⊢
    split_ifs at htr ⊢ <;> simp_all [truthy_info]

theorem resolver_caching_witness :
    alookup ([] : List (String × TokenInfo)) "So11111111111111111111111111" =
      none ∧
    ((get_token_info [] (fun _ => DexResp.ok [⟨some "Wrapped SOL",
        some "SOL", some "solana"⟩]) (JupResp.ok none)
        "So11111111111111111111111111").network_used = true ∧
      truthy_info (get_token_info [] (fun _ => DexResp.ok [⟨some
        "Wrapped SOL", some "SOL", some "solana"⟩]) (JupResp.ok none)
        "So11111111111111111111111111").result = true ∧
      (get_token_info [] (fun _ => DexResp.ok [⟨some "Wrapped SOL",
        some "SOL", some "solana"⟩]) (JupResp.ok none)
        "So11111111111111111111111111").cache =
        [("So11111111111111111111111111",
          (some "Wrapped SOL", some "$SOL", some "solana"))] ∧
      get_token_info [("So11111111111111111111111111",
          (some "Wrapped SOL", some "$SOL", some "solana"))]
        (fun _ => DexResp.timeout) JupResp.netError
        "So11111111111111111111111111" =
        { result := (some "Wrapped SOL", some "$SOL", some "solana"),
          cache := [("So11111111111111111111111111",
            (some "Wrapped SOL", some "$SOL", some "solana"))],
          network_used := false }) := by
  have hmain := resolver_caching [] (fun _ => DexResp.ok [⟨some "Wrapped SOL",
    some "SOL", some "solana"⟩]) (JupResp.ok none)
    "So11111111111111111111111111" rfl
  refine ⟨rfl, hmain.1, by decide, ?_, ?_⟩
  · have h2 := hmain.2.1 (by decide)
    rw [h2]
    decide
  · exact (hmain.2.2.1 [("So11111111111111111111111111",
      (some "Wrapped SOL", some "$SOL", some "solana"))]
      (fun _ => DexResp.timeout) JupResp.netError
      "So11111111111111111111111111" _ rfl).1

/-! ## C7 and C8: notification dedup and the global pause -/

theorem alookup_append_of_none {β : Type} (l : List (String × β))
    (k : String) (v : β) (h : alookup l k = none) :
    alookup (l ++ [(k, v)]) k = some v := by
  induction l with
  | nil => simp [alookup]
  | cons e es ih =>
    by_cases he : e.1 = k
    · simp [alookup, he] at h
    · simp only [alookup, he] at h
      simpa [alookup, he] using ih h

theorem get_stats_add_token_new (tr : TokenTracker) (tok : String)
    (n t : Option String) (chat : Int) (now : Nat)
    (h : get_stats tr tok = none) :
    get_stats (add_token tr tok n t chat now).1 tok = some
      { token_address := tok, token_name := n, ticker := t,
        chat_ids := [chat], start_time := now } := by
  unfold get_stats at h
  simp only [add_token, h, get_stats]
  exact alookup_append_of_none tr.tokens tok _ h

/-- C7: a message carrying a token address in a channel that was already
notified for it (its chat id is recorded under the token in the dedup map)
changes nothing and emits nothing; in a channel not yet notified, with the
token already monitored, it emits exactly one initial notification to that
channel, only adds the channel to the token's subscribers, and starts no
second monitor session (`sessions` is untouched). -/
theorem duplicate_notification_dedup (st : BotState) (now : Nat)
    (msg_date : Option Nat) (chat : Int) (tok : String) (dex : Nat → DexResp)
    (jup : JupResp) (results : List Tweet)
    (hdate : msg_before_start st.bot_start_time msg_date = false)
    (hchan : st.channel_ids = [] ∨ chat ∈ st.channel_ids)
    (hsleep : is_sleeping st.sleep_until now = false) :
    (processed_contains st.processed_cas tok chat = true →
      handle_message st now msg_date chat (some tok) dex jup results =
        (st, [])) ∧
    (processed_contains st.processed_cas tok chat = false →
      ∀ s, get_stats st.tracker tok = some s →
      handle_message st now msg_date chat (some tok) dex jup results =
        ({ st with
            processed_cas := processed_add st.processed_cas tok chat,
            tracker := add_channel_to_token st.tracker tok chat },
         [BotEvent.initialNotification chat tok])) := by
  have hchan' : ¬ (st.channel_ids ≠ [] ∧ chat ∉ st.channel_ids) := by
    rcases hchan with h1 | h1
    · exact fun hc => hc.1 h1
    · exact fun hc => hc.2 h1
  constructor
  · intro h1
    simp [handle_message, hdate, hchan', hsleep, h1]
  · intro h1 s hs
    simp [handle_message, hdate, hchan', hsleep, h1, hs]

theorem duplicate_notification_dedup_witness :
    handle_message ⟨[], [("T", [5])], ⟨[("T", ⟨"T", none, none, [5], 0, 2, 1,
        1, 2, 1, 1, 0, 0, 0, true⟩)], "leaderboard"⟩, [], none, none, ["T"]⟩
      10 none 5 (some "T") (fun _ => DexResp.timeout) JupResp.netError [] =
      (⟨[], [("T", [5])], ⟨[("T", ⟨"T", none, none, [5], 0, 2, 1, 1, 2, 1, 1,
        0, 0, 0, true⟩)], "leaderboard"⟩, [], none, none, ["T"]⟩, []) ∧
    handle_message ⟨[], [("T", [5])], ⟨[("T", ⟨"T", none, none, [5], 0, 2, 1,
        1, 2, 1, 1, 0, 0, 0, true⟩)], "leaderboard"⟩, [], none, none, ["T"]⟩
      10 none 6 (some "T") (fun _ => DexResp.timeout) JupResp.netError [] =
      ({ (⟨[], [("T", [5])], ⟨[("T", ⟨"T", none, none, [5], 0, 2, 1, 1, 2, 1,
          1, 0, 0, 0, true⟩)], "leaderboard"⟩, [], none, none,
          ["T"]⟩ : BotState) with
          processed_cas := processed_add [("T", [5])] "T" 6,
          tracker := add_channel_to_token ⟨[("T", ⟨"T", none, none, [5], 0,
            2, 1, 1, 2, 1, 1, 0, 0, 0, true⟩)], "leaderboard"⟩ "T" 6 },
       [BotEvent.initialNotification 6 "T"]) :=
  ⟨(duplicate_notification_dedup ⟨[], [("T", [5])], ⟨[("T", ⟨"T", none,
      none, [5], 0, 2, 1, 1, 2, 1, 1, 0, 0, 0, true⟩)], "leaderboard"⟩, [],
      none, none, ["T"]⟩ 10 none 5 "T" (fun _ => DexResp.timeout)
      JupResp.netError [] rfl (Or.inl rfl) rfl).1 (by decide),
   (duplicate_notification_dedup ⟨[], [("T", [5])], ⟨[("T", ⟨"T", none,
      none, [5], 0, 2, 1, 1, 2, 1, 1, 0, 0, 0, true⟩)], "leaderboard"⟩, [],
      none, none, ["T"]⟩ 10 none 6 "T" (fun _ => DexResp.timeout)
      JupResp.netError [] rfl (Or.inl rfl) rfl).2 (by decide) _ rfl⟩

/-- C8: while the global pause is in effect every incoming message is
dropped before any token processing (no state change, no events, so no
monitor session or registry entry is created); the same message once the
pause is over — and the other gates pass — starts a monitor for a
brand-new token: a `monitorStarted` event is emitted, the token is appended
to the session list, and a registry entry for it exists afterwards. -/
theorem pause_gates_new_sessions (st : BotState) (now : Nat)
    (msg_date : Option Nat) (chat : Int) (tok : String) (dex : Nat → DexResp)
    (jup : JupResp) (results : List Tweet) :
    (is_sleeping st.sleep_until now = true →
      handle_message st now msg_date chat (some tok) dex jup results =
        (st, [])) ∧
    (msg_before_start st.bot_start_time msg_date = false →
      (st.channel_ids = [] ∨ chat ∈ st.channel_ids) →
      is_sleeping st.sleep_until now = false →
      processed_contains st.processed_cas tok chat = false →
      get_stats st.tracker tok = none →
      BotEvent.monitorStarted tok ∈
        (handle_message st now msg_date chat (some tok) dex jup results).2 ∧
      (handle_message st now msg_date chat (some tok) dex jup
        results).1.sessions = st.sessions ++ [tok] ∧
      ∃ s, get_stats (handle_message st now msg_date chat (some tok) dex jup
        results).1.tracker tok = some s) := by
  constructor
  · intro hs
    by_cases hd : msg_before_start st.bot_start_time msg_date
    · simp [handle_message, hd]
    · by_cases hcc : st.channel_ids ≠ [] ∧ chat ∉ st.channel_ids
      · simp [handle_message, hd, hcc]
      · simp [handle_message, hd, hcc, hs]
  · intro hd hchan hsleep hproc hstats
    have hchan' : ¬ (st.channel_ids ≠ [] ∧ chat ∉ st.channel_ids) := by
      rcases hchan with h1 | h1
      · exact fun hc => hc.1 h1
      · exact fun hc => hc.2 h1
    have hred : handle_message st now msg_date chat (some tok) dex jup
        results =
        ({ st with
            processed_cas := processed_add st.processed_cas tok chat,
            tracker := update_initial
              (add_token st.tracker tok
                (py_or (get_token_info st.token_info_cache dex jup
                  tok).result.2.1
                  (get_token_info st.token_info_cache dex jup tok).result.1)
                (py_or (get_token_info st.token_info_cache dex jup
                  tok).result.2.1
                  (get_token_info st.token_info_cache dex jup tok).result.1)
                chat now).1
              tok (initial_count [] results).1.1
              (initial_count [] results).1.2.1
              (initial_count [] results).1.2.2,
            token_info_cache := (get_token_info st.token_info_cache dex jup
              tok).cache,
            sessions := st.sessions ++ [tok] },
         [BotEvent.initialNotification chat tok,
          BotEvent.monitorStarted tok]) := by
      simp [handle_message, hd, hchan', hsleep, hproc, hstats]
    rw [hred]
    refine ⟨by simp, by simp, ?_⟩
    exact ⟨_, by
      rw [get_stats_update_initial,
        get_stats_add_token_new st.tracker tok _ _ chat now hstats]
      rfl⟩

theorem pause_gates_new_sessions_witness :
    handle_message ⟨[], [], ⟨[], "leaderboard"⟩, [], some 100, none, []⟩ 50
      none 5 (some "N") (fun _ => DexResp.ok []) JupResp.netError [] =
      (⟨[], [], ⟨[], "leaderboard"⟩, [], some 100, none, []⟩, []) ∧
    (BotEvent.monitorStarted "N" ∈
      (handle_message ⟨[], [], ⟨[], "leaderboard"⟩, [], some 100, none, []⟩
        150 none 5 (some "N") (fun _ => DexResp.ok []) JupResp.netError
        []).2 ∧
     (handle_message ⟨[], [], ⟨[], "leaderboard"⟩, [], some 100, none, []⟩
        150 none 5 (some "N") (fun _ => DexResp.ok []) JupResp.netError
        []).1.sessions = [] ++ ["N"] ∧
     ∃ s, get_stats (handle_message ⟨[], [], ⟨[], "leaderboard"⟩, [],
        some 100, none, []⟩ 150 none 5 (some "N") (fun _ => DexResp.ok [])
        JupResp.netError []).1.tracker "N" = some s) :=
  ⟨(pause_gates_new_sessions ⟨[], [], ⟨[], "leaderboard"⟩, [], some 100,
      none, []⟩ 50 none 5 "N" (fun _ => DexResp.ok []) JupResp.netError
      []).1 rfl,
   (pause_gates_new_sessions ⟨[], [], ⟨[], "leaderboard"⟩, [], some 100,
      none, []⟩ 150 none 5 "N" (fun _ => DexResp.ok []) JupResp.netError
      []).2 rfl (Or.inl rfl) rfl rfl rfl⟩

end Xterm
